import Mathlib

set_option autoImplicit false

namespace WhatsappBot

/-! Shallow embedding of the whatsapp-bot moderation and verification core.
Strings are modelled as `List Char`; JavaScript `Date.now()` timestamps are
`Nat` milliseconds, SQLite `datetime` values are `Nat` seconds. -/

abbrev Str := List Char

/-- ASCII lowercasing, the model of JavaScript `toLowerCase` on the ASCII
inputs the checks operate on. -/
def lowerStr (l : Str) : Str := l.map Char.toLower

/-- Model of JavaScript `String.prototype.trim`: drop whitespace from both
ends. -/
def trimStr (l : Str) : Str :=
  ((l.dropWhile Char.isWhitespace).reverse.dropWhile Char.isWhitespace).reverse

/-- Decides whether `pat` occurs as a contiguous substring. -/
def containsSub (pat : Str) : Str → Bool
  | [] => pat.isEmpty
  | c :: rest => pat.isPrefixOf (c :: rest) || containsSub pat rest

/-- Model of JavaScript `String.prototype.replace(pat, empty)`: remove the
first occurrence of `pat`, if any. -/
def replaceFirst (pat : Str) : Str → Str
  | [] => []
  | c :: rest =>
    if pat.isPrefixOf (c :: rest) then (c :: rest).drop pat.length
    else c :: replaceFirst pat rest

/-- If the text starts (case-insensitively) with a URL scheme prefix
`https://` or `http://`, the length of that prefix. The regex alternative
`https?` commits to the longer form first; dropping the optional `s` can
never rescue a failed match because the next character would then have to
be both `s` and `:`. -/
def httpHeadLen (l : Str) : Option Nat :=
  if (r"https://".data).isPrefixOf (lowerStr l) then some 8
  else if (r"http://".data).isPrefixOf (lowerStr l) then some 7
  else none

/-- Fuel-indexed scanner counting matches of the regex
`https?:\/\/[^\s]+` with the `g` flag: at each position, a match needs the
scheme prefix followed by at least one non-whitespace character and then
greedily consumes the rest of the non-whitespace run; otherwise the scan
advances one character. -/
def countLinksAux : Nat → Str → Nat
  | 0, _ => 0
  | _, [] => 0
  | fuel + 1, c :: rest =>
    match httpHeadLen (c :: rest) with
    | some n =>
      let after := (c :: rest).drop n
      let consumed := after.takeWhile (fun ch => !ch.isWhitespace)
      if consumed.isEmpty then countLinksAux fuel rest
      else 1 + countLinksAux fuel (after.dropWhile (fun ch => !ch.isWhitespace))
    | none => countLinksAux fuel rest

/-- Number of URL-like matches in a message (`linkCount` in
`checkSimpleSpam`). -/
def countLinks (l : Str) : Nat := countLinksAux l.length l

inductive Severity where
  | low
  | medium
  | high
deriving DecidableEq

inductive VerdictType where
  | excessive_links
  | excessive_caps
  | repeated_message
  | sensitive_topic
  | toxic_content
  | sensitive_image
  | sensitive_video
  | sensitive_gif
deriving DecidableEq

/-- A moderation verdict; the human-readable `reason` text of the source is
not modelled, only the discriminating `type` and `severity` fields. -/
structure Verdict where
  type : VerdictType
  severity : Severity
deriving DecidableEq

/-- One entry of the `recentMessages` map: normalized last message, repeat
count and last-seen timestamp (milliseconds). -/
structure RepeatEntry where
  message : Str
  count : Nat
  lastTime : Nat
deriving DecidableEq

/-- The `recentMessages` JavaScript `Map`, modelled as an insertion-ordered
association list keyed by the concatenated string `sender:group`. -/
abbrev RepeatCache := List (Str × RepeatEntry)

def cacheGet (k : Str) (c : RepeatCache) : Option RepeatEntry :=
  (c.find? (fun p => p.1 = k)).map (fun p => p.2)

/-- `Map.set`: update in place if the key exists (preserving insertion
order), otherwise append. -/
def cacheSet (k : Str) (v : RepeatEntry) (c : RepeatCache) : RepeatCache :=
  if c.any (fun p => p.1 = k) then
    c.map (fun p => if p.1 = k then (k, v) else p)
  else c ++ [(k, v)]

/-- `cleanRecentMessages`: evict every entry whose age exceeds the 60000 ms
repeat window. -/
def cleanRecentMessages (now : Nat) (c : RepeatCache) : RepeatCache :=
  c.filter (fun p => !(60000 < now - p.2.lastTime))

/-- The `sender:group` cache key. -/
def repeatKey (sender grp : Str) : Str := sender ++ ':' :: grp

/-- Normalized message used for repeat comparison:
`message.toLowerCase().trim()`. -/
def messageHash (msg : Str) : Str := trimStr (lowerStr msg)

/-- Translation of `checkSimpleSpam` (identical in both moderation source
files): link check, caps check, then the stateful repeat check. The float
comparison `capsRatio > 0.7` is rendered exactly as
`10 * caps > 7 * letters` over integers. Returns the verdict (if any) and
the updated repeat cache. -/
def checkSimpleSpam (msg sender grp : Str) (now : Nat) (cache : RepeatCache) :
    Option Verdict × RepeatCache :=
  if msg.length < 5 then (none, cache)
  else if 3 < countLinks msg then
    (some ⟨VerdictType.excessive_links, Severity.medium⟩, cache)
  else if 10 ≤ msg.length ∧ (msg.filter Char.isAlpha) ≠ [] ∧
      7 * (msg.filter Char.isAlpha).length <
        10 * ((msg.filter Char.isAlpha).filter Char.isUpper).length then
    (some ⟨VerdictType.excessive_caps, Severity.low⟩, cache)
  else
    let c1 := cleanRecentMessages now cache
    let key := repeatKey sender grp
    let h := messageHash msg
    match cacheGet key c1 with
    | some e =>
      if e.message = h then
        let e' : RepeatEntry := ⟨e.message, e.count + 1, now⟩
        if 3 ≤ e'.count then
          (some ⟨VerdictType.repeated_message, Severity.medium⟩, cacheSet key e' c1)
        else (none, cacheSet key e' c1)
      else (none, cacheSet key ⟨h, 1, now⟩ c1)
    | none => (none, cacheSet key ⟨h, 1, now⟩ c1)

/-- The apostrophe character, used in one sensitive-topic keyword. -/
def apos : Char := Char.ofNat 39

/-- The `SENSITIVE_TOPICS` keyword list of `src/moderation.js` (the variant
whose keyword check is live in its `moderateMessage`). -/
def SENSITIVE_TOPICS : List Str := [
  r"politics".data, r"politicians".data, r"political parties".data, r"elections".data,
  r"voting".data, r"government".data,
  r"religion".data, r"religious".data, r"god".data, r"church".data, r"mosque".data,
  r"temple".data, r"bible".data, r"quran".data, r"conversion".data,
  r"caste".data, r"reservation".data, r"dalit".data, r"brahmin".data,
  r"caste system".data, r"untouchable".data,
  r"feminism".data, r"feminist".data, r"men".data ++ [apos] ++ r"s rights".data,
  r"gender war".data, r"patriarchy".data, r"misogyny".data, r"misandry".data,
  r"lgbtq".data, r"lgbt".data, r"gay".data, r"lesbian".data, r"transgender".data,
  r"trans rights".data, r"same-sex marriage".data, r"homosexual".data,
  r"racism".data, r"racist".data, r"skin color".data, r"north india".data,
  r"south india".data, r"regionalism".data, r"ethnic".data,
  r"vaccine".data, r"covid".data, r"corona".data, r"5g".data, r"conspiracy".data,
  r"big pharma".data, r"anti-vax".data, r"microchip".data,
  r"abortion".data, r"pro-life".data, r"pro-choice".data, r"prolife".data,
  r"prochoice".data]

/-- Translation of `checkSensitiveKeywords`: the `SENSITIVE_KEYWORDS_REGEX`
pre-test is an alternation of exactly the (lowercase) topic strings, so it
succeeds precisely when the subsequent substring filter is nonempty; the two
steps collapse to the filter. -/
def checkSensitiveKeywords (msg : Str) : Option Verdict :=
  if msg.length < 3 then none
  else
    let matchedTopics :=
      SENSITIVE_TOPICS.filter (fun t => containsSub t (lowerStr msg))
    if matchedTopics.isEmpty then none
    else some ⟨VerdictType.sensitive_topic, Severity.high⟩

/-- Response of the external OpenAI moderation endpoint as `checkToxicContent`
consumes it: the overall `flagged` bit and the list of per-category scores. -/
structure ApiModeration where
  flagged : Bool
  scores : List Rat

/-- Parsed response of the topic-classification chat call as
`checkSensitiveContent` consumes it. -/
structure TopicResp where
  flagged : Bool
  confidence : Rat

/-- External-capability environment: whether an API key is configured and the
outcome of each external call (`none` models a transport failure or an
unparsable payload, both of which the source catches and turns into a null
verdict). -/
structure ModEnv where
  hasApiKey : Bool
  toxicApi : Str → Option ApiModeration
  topicApi : Str → Option TopicResp

/-- Translation of `checkToxicContent` (identical in both moderation files):
severity high when the service flags the text, otherwise medium when some
category score exceeds 0.75, otherwise no verdict. -/
def checkToxicContent (env : ModEnv) (msg : Str) : Option Verdict :=
  if msg.length < 3 then none
  else if !env.hasApiKey then none
  else
    match env.toxicApi msg with
    | none => none
    | some r =>
      if r.flagged then some ⟨VerdictType.toxic_content, Severity.high⟩
      else if r.scores.any (fun s => decide ((3 : Rat)/4 < s)) then
        some ⟨VerdictType.toxic_content, Severity.medium⟩
      else none

/-- Translation of `checkSensitiveContent` (identical in both moderation
files): accepted only when flagged with confidence above 0.7. -/
def checkSensitiveContent (env : ModEnv) (msg : Str) : Option Verdict :=
  if msg.length < 10 then none
  else if !env.hasApiKey then none
  else
    match env.topicApi msg with
    | none => none
    | some r =>
      if r.flagged ∧ (7 : Rat)/10 < r.confidence then
        some ⟨VerdictType.sensitive_topic, Severity.high⟩
      else none

inductive StageTag where
  | heuristicSpam
  | sensitiveKeywords
  | toxicClassify
  | topicClassify
deriving DecidableEq

/-- Translation of `moderateMessage` from `src/moderation.js`. The third
component instruments the run with the list of stages evaluated, in order;
the source computes only the verdict and the cache mutation. -/
def moderateMessageJs (env : ModEnv) (msg sender grp : Str) (now : Nat)
    (cache : RepeatCache) : Option Verdict × RepeatCache × List StageTag :=
  match checkSimpleSpam msg sender grp now cache with
  | (some v, cache') => (some v, cache', [StageTag.heuristicSpam])
  | (none, cache') =>
    match checkSensitiveKeywords msg with
    | some v => (some v, cache', [StageTag.heuristicSpam, StageTag.sensitiveKeywords])
    | none =>
      match checkToxicContent env msg with
      | some v =>
        (some v, cache',
          [StageTag.heuristicSpam, StageTag.sensitiveKeywords, StageTag.toxicClassify])
      | none =>
        if 20 < msg.length then
          (checkSensitiveContent env msg, cache',
            [StageTag.heuristicSpam, StageTag.sensitiveKeywords,
              StageTag.toxicClassify, StageTag.topicClassify])
        else
          (none, cache',
            [StageTag.heuristicSpam, StageTag.sensitiveKeywords, StageTag.toxicClassify])

/-- Translation of `moderateMessage` from the unnamed moderation source file
(`src/unnamed/part_000`), where the keyword stage is disabled. -/
def moderateMessageP0 (env : ModEnv) (msg sender grp : Str) (now : Nat)
    (cache : RepeatCache) : Option Verdict × RepeatCache × List StageTag :=
  match checkSimpleSpam msg sender grp now cache with
  | (some v, cache') => (some v, cache', [StageTag.heuristicSpam])
  | (none, cache') =>
    match checkToxicContent env msg with
    | some v => (some v, cache', [StageTag.heuristicSpam, StageTag.toxicClassify])
    | none =>
      if 20 < msg.length then
        (checkSensitiveContent env msg, cache',
          [StageTag.heuristicSpam, StageTag.toxicClassify, StageTag.topicClassify])
      else
        (none, cache', [StageTag.heuristicSpam, StageTag.toxicClassify])

/-- One pipeline stage as the spec describes it: a tag and a (possibly
stateful) check over the message. -/
structure SpecStage where
  tag : StageTag
  run : Str → RepeatCache → Option Verdict × RepeatCache

/-- First-match-wins evaluation of an ordered stage list with early exit, per
the spec's terminal-on-first-verdict state machine; the trace records which
stages were evaluated. -/
def runFirstVerdict (msg : Str) : List SpecStage → RepeatCache →
    Option Verdict × RepeatCache × List StageTag
  | [], cache => (none, cache, [])
  | s :: rest, cache =>
    match s.run msg cache with
    | (some v, cache') => (some v, cache', [s.tag])
    | (none, cache') =>
      let r := runFirstVerdict msg rest cache'
      (r.1, r.2.1, s.tag :: r.2.2)

/-- The text path exactly as the spec sentence states it:
heuristic-spam, then toxic-classify, then (only if the text length exceeds
20) topic-classify. -/
def specTextStages (env : ModEnv) (sender grp : Str) (now : Nat) (msg : Str) :
    List SpecStage :=
  [⟨StageTag.heuristicSpam, fun m c => checkSimpleSpam m sender grp now c⟩,
   ⟨StageTag.toxicClassify, fun m c => (checkToxicContent env m, c)⟩] ++
  (if 20 < msg.length then
    [⟨StageTag.topicClassify, fun m c => (checkSensitiveContent env m, c)⟩]
  else [])

/-- The spec-side text path of claim C4. -/
def specTextPath (env : ModEnv) (msg sender grp : Str) (now : Nat)
    (cache : RepeatCache) : Option Verdict × RepeatCache × List StageTag :=
  runFirstVerdict msg (specTextStages env sender grp now msg) cache

/-- The text path with a sensitive-keyword stage inserted after
heuristic-spam, matching what `src/moderation.js` actually runs. -/
def specTextStagesKw (env : ModEnv) (sender grp : Str) (now : Nat) (msg : Str) :
    List SpecStage :=
  [⟨StageTag.heuristicSpam, fun m c => checkSimpleSpam m sender grp now c⟩,
   ⟨StageTag.sensitiveKeywords, fun m c => (checkSensitiveKeywords m, c)⟩,
   ⟨StageTag.toxicClassify, fun m c => (checkToxicContent env m, c)⟩] ++
  (if 20 < msg.length then
    [⟨StageTag.topicClassify, fun m c => (checkSensitiveContent env m, c)⟩]
  else [])

/-- The four-stage pipeline that `src/moderation.js` implements. -/
def specTextPathKw (env : ModEnv) (msg sender grp : Str) (now : Nat)
    (cache : RepeatCache) : Option Verdict × RepeatCache × List StageTag :=
  runFirstVerdict msg (specTextStagesKw env sender grp now msg) cache

/-- Environment in which every external classification yields no verdict. -/
def envNone : ModEnv := ⟨false, fun _ => none, fun _ => none⟩

example : checkSensitiveKeywords (r"politics".data) =
    some ⟨VerdictType.sensitive_topic, Severity.high⟩ := by decide

/-- Translation of `jidToPhone`: strip the first `@s.whatsapp.net`, then the
first `@g.us`, then keep the part before the first colon. -/
def jidToPhone (jid : Str) : Str :=
  (replaceFirst (r"@g.us".data) (replaceFirst (r"@s.whatsapp.net".data) jid)).takeWhile
    (fun c => c ≠ ':')

/-- A row of the `pending_verifications` table (the autoincrement id and the
legacy `expected_answer` column are omitted); times are seconds. -/
structure PendingRec where
  phone : Str
  group_id : Str
  captcha_code : Str
  created_at : Nat
  expires_at : Nat
deriving DecidableEq

/-- A row of the `verified_users` table (`hashed_phone` and the autoincrement
id are omitted). The schema declares `phone TEXT UNIQUE`, so the uniqueness
constraint is on the phone alone, not on the (phone, group) pair. -/
structure VerifiedRec where
  phone : Str
  group_id : Str
  verified_at : Nat
deriving DecidableEq

/-- Translation of `db.addPendingCaptcha`: no-op on a falsy code; otherwise
`INSERT OR REPLACE` under `UNIQUE(phone, group_id)` removes any row with the
same pair and inserts a row whose code is uppercased and whose expiry is
`now + timeoutMinutes` minutes. -/
def addPendingCaptcha (phone grp code : Str) (timeoutMinutes now : Nat)
    (db : List PendingRec) : List PendingRec :=
  if code = [] then db
  else
    ⟨phone, grp, code.map Char.toUpper, now, now + 60 * timeoutMinutes⟩ ::
      db.filter (fun r => !(r.phone = phone ∧ r.group_id = grp))

/-- Translation of `db.getPendingVerification`: the row for the pair, but only
while `expires_at > now`. -/
def getPendingVerification (phone grp : Str) (now : Nat) (db : List PendingRec) :
    Option PendingRec :=
  db.find? (fun r => r.phone = phone ∧ r.group_id = grp ∧ now < r.expires_at)

/-- Translation of `db.removePendingVerification`. -/
def removePendingVerification (phone grp : Str) (db : List PendingRec) :
    List PendingRec :=
  db.filter (fun r => !(r.phone = phone ∧ r.group_id = grp))

/-- Translation of `db.getExpiredVerifications`: rows with
`expires_at <= now`. -/
def getExpiredVerifications (now : Nat) (db : List PendingRec) : List PendingRec :=
  db.filter (fun r => r.expires_at ≤ now)

/-- Translation of `db.cleanupExpiredVerifications`: delete every row with
`expires_at <= now`. -/
def cleanupExpiredVerifications (now : Nat) (db : List PendingRec) :
    List PendingRec :=
  db.filter (fun r => !(r.expires_at ≤ now))

/-- Translation of `db.markUserVerified`: `INSERT OR REPLACE` into
`verified_users`; because the table's uniqueness constraint is
`phone TEXT UNIQUE`, the replace removes every row with the same phone,
whatever its group. -/
def markUserVerified (phone grp : Str) (now : Nat) (db : List VerifiedRec) :
    List VerifiedRec :=
  ⟨phone, grp, now⟩ :: db.filter (fun r => !(r.phone = phone))

/-- Translation of `db.isUserVerified`: lookup by the (phone, group) pair. -/
def isUserVerified (phone grp : Str) (db : List VerifiedRec) : Bool :=
  db.any (fun r => r.phone = phone ∧ r.group_id = grp)

/-- The two persistent stores the verification state machine touches. -/
structure VerifState where
  pending : List PendingRec
  verified : List VerifiedRec
deriving DecidableEq

/-- Translation of `startVerification` (message delivery abstracted away):
issue no challenge when the user is already verified for the pair, otherwise
record the pending captcha and issue one. The returned flag says whether a
challenge was issued. -/
def startVerification (userJid grp code : Str) (timeoutMinutes now : Nat)
    (st : VerifState) : Bool × VerifState :=
  let userPhone := jidToPhone userJid
  if isUserVerified userPhone grp st.verified then (false, st)
  else
    (true, { st with pending := addPendingCaptcha userPhone grp code timeoutMinutes now st.pending })

/-- Result of `checkVerificationAnswer` (the localized message text is not
modelled, only the success flag and the phone). -/
structure AnswerResult where
  success : Bool
  phone : Str
deriving DecidableEq

/-- Captcha-shaped text: 3 to 7 alphanumeric characters
(`/^[A-Z0-9]{3,7}$/i` applied to the trimmed text). -/
def looksLikeCaptcha (l : Str) : Bool :=
  3 ≤ l.length ∧ l.length ≤ 7 ∧ l.all (fun c => c.isAlphanum)

/-- Translation of `checkVerificationAnswer`: look up the live pending record
for the sender's pair; on an exact (case-normalized) code match delete the
pending record and mark the user verified; on a captcha-shaped mismatch
report a wrong code; otherwise do nothing. -/
def checkVerificationAnswer (senderJid msgText grp : Str) (now : Nat)
    (st : VerifState) : Option AnswerResult × VerifState :=
  let phone := jidToPhone senderJid
  match getPendingVerification phone grp now st.pending with
  | none => (none, st)
  | some pending =>
    if pending.captcha_code = [] then (none, st)
    else
      let userAnswer := (trimStr msgText).map Char.toUpper
      let expectedCode := pending.captcha_code.map Char.toUpper
      if userAnswer = expectedCode then
        (some ⟨true, phone⟩,
          ⟨removePendingVerification phone grp st.pending,
            markUserVerified phone grp now st.verified⟩)
      else if looksLikeCaptcha (trimStr msgText) then
        (some ⟨false, phone⟩, st)
      else (none, st)

/-- The JID used for a removal attempt: append the host suffix when the
stored phone carries no `@`. -/
def participantJid (phone : Str) : Str :=
  if phone.contains '@' then phone else phone ++ (r"@s.whatsapp.net".data)

/-- Externally observable events of one sweep iteration. -/
inductive SweepEvent where
  | sendTimeout (grp : Str)
  | kickAttempt (jid grp : Str)
deriving DecidableEq

/-- Per-record outcomes of the external calls made during the sweep; every
failure is caught in the source, so outcomes never abort the loop. -/
structure SweepWorld where
  sendOk : PendingRec → Bool
  kickOk : PendingRec → Bool

/-- One iteration of the sweep loop of `processExpiredVerifications`: send the
timeout notice (failure caught and logged), then attempt exactly one removal
(failure caught and logged); the record joins the kicked list only when the
removal succeeded. -/
def sweepOne (w : SweepWorld) (r : PendingRec) : List SweepEvent × List (Str × Str) :=
  ([SweepEvent.sendTimeout r.group_id,
    SweepEvent.kickAttempt (participantJid r.phone) r.group_id],
   if w.kickOk r then [(r.phone, r.group_id)] else [])

/-- The sweep loop over the expired records, accumulating events and kicked
users. -/
def sweepLoop (w : SweepWorld) : List PendingRec → List SweepEvent × List (Str × Str)
  | [] => ([], [])
  | r :: rest =>
    let step := sweepOne w r
    let tail := sweepLoop w rest
    (step.1 ++ tail.1, step.2 ++ tail.2)

/-- Translation of `processExpiredVerifications`: fetch the expired records at
time `t1`, run the per-record loop, then delete every expired record at time
`t2 >= t1`. Returns the kicked users, the event trace, and the store after
cleanup. -/
def processExpiredVerifications (w : SweepWorld) (t1 t2 : Nat)
    (db : List PendingRec) :
    List (Str × Str) × List SweepEvent × List PendingRec :=
  let expired := getExpiredVerifications t1 db
  let run := sweepLoop w expired
  (run.2, run.1, cleanupExpiredVerifications t2 db)

example :
    (checkVerificationAnswer (r"31612345@s.whatsapp.net".data) (r"ab4de".data)
      (r"g1".data) 50 ⟨[⟨r"31612345".data, r"g1".data, r"AB4DE".data, 0, 100⟩], []⟩).1 =
      some ⟨true, r"31612345".data⟩ := by decide

/-- A row of the `moderation_logs` table (only the fields the claims touch:
id, restored flag, admin response, plus identifying data). -/
structure LogEntry where
  id : Nat
  group_id : Str
  user_phone : Str
  message_body : Str
  restored : Bool
  admin_response : Option Str
deriving DecidableEq

/-- Translation of `db.getModerationLogById`. -/
def getModerationLogById (db : List LogEntry) (logId : Nat) : Option LogEntry :=
  db.find? (fun e => e.id = logId)

/-- Translation of `db.markMessageRestored`:
`UPDATE moderation_logs SET restored = 1 WHERE id = ?`. -/
def markMessageRestored (db : List LogEntry) (logId : Nat) : List LogEntry :=
  db.map (fun e => if e.id = logId then { e with restored := true } else e)

/-- Translation of `db.updateModerationResponse`. -/
def updateModerationResponse (db : List LogEntry) (logId : Nat) (resp : Str) :
    List LogEntry :=
  db.map (fun e => if e.id = logId then { e with admin_response := some resp } else e)

/-- Translation of `db.logModeration`: append a fresh row with
`restored = 0`; the autoincrement id is modelled as one past the maximum.
Returns the new id and the store. -/
def logModeration (db : List LogEntry) (grp phone body : Str) :
    Nat × List LogEntry :=
  let newId := (db.map (fun e => e.id)).foldr max 0 + 1
  (newId, db ++ [⟨newId, grp, phone, body, false, none⟩])

/-- Translation of `db.clearModerationLogs`: delete everything, returning the
count. -/
def clearModerationLogs (db : List LogEntry) : Nat × List LogEntry :=
  (db.length, [])

inductive RestoreError where
  | notFound
  | alreadyRestored
  | notConnected
  | sendFailed
deriving DecidableEq

inductive RestoreResult where
  | ok
  | failed (e : RestoreError)
deriving DecidableEq

/-- Translation of the `/api/restore-message/:id` handler: missing entry,
already-restored entry and a disconnected bot each yield a user-facing
failure without touching the store; a failing resend (caught by the outer
try) also leaves the store untouched; only after a successful resend is the
entry marked restored. -/
def restoreMessage (connected sendOk : Bool) (db : List LogEntry) (logId : Nat) :
    RestoreResult × List LogEntry :=
  match getModerationLogById db logId with
  | none => (RestoreResult.failed RestoreError.notFound, db)
  | some log =>
    if log.restored then (RestoreResult.failed RestoreError.alreadyRestored, db)
    else if !connected then (RestoreResult.failed RestoreError.notConnected, db)
    else if !sendOk then (RestoreResult.failed RestoreError.sendFailed, db)
    else (RestoreResult.ok, markMessageRestored db logId)

/-- Every operation of the source that mutates the moderation-log store. -/
inductive LedgerOp where
  | logNew (grp phone body : Str)
  | restore (connected sendOk : Bool) (logId : Nat)
  | markRestored (logId : Nat)
  | setAdminResponse (logId : Nat) (resp : Str)
  | clearAll

def applyLedgerOp : LedgerOp → List LogEntry → List LogEntry
  | LedgerOp.logNew g p b, db => (logModeration db g p b).2
  | LedgerOp.restore c s i, db => (restoreMessage c s db i).2
  | LedgerOp.markRestored i, db => markMessageRestored db i
  | LedgerOp.setAdminResponse i r, db => updateModerationResponse db i r
  | LedgerOp.clearAll, db => (clearModerationLogs db).2

/-- Abstract state of the filesystem and ffmpeg during one call of
`extractVideoFrames`: the ffprobe outcome (`none` models a rejected probe),
whether the primary timestamp-based run succeeds, whether the fixed-interval
fallback succeeds, and the `frame_*.jpg` files on disk after the extraction
step (frame buffers are identified by their file names). -/
structure VideoWorld where
  probeDuration : Option Nat
  primaryOk : Bool
  fallbackOk : Bool
  frameFiles : List Str
deriving DecidableEq

inductive FsEvent where
  | unlinkTempInput
  | unlinkFrame (name : Str)
deriving DecidableEq

/-- Outcome of an extractor call: the returned frame list, or a propagated
(re-thrown) exception. -/
inductive ExtractOutcome where
  | ok (frames : List Str)
  | thrown
deriving DecidableEq

/-- Translation of `extractVideoFrames`: a rejected probe or a failure of both
extraction runs propagates as an error after unlinking only the temporary
input file; on success every frame file found is read, collected and
unlinked, then the input file is unlinked. The second component is the trace
of cleanup attempts. -/
def extractVideoFrames (w : VideoWorld) : ExtractOutcome × List FsEvent :=
  match w.probeDuration with
  | none => (ExtractOutcome.thrown, [FsEvent.unlinkTempInput])
  | some _ =>
    if w.primaryOk || w.fallbackOk then
      (ExtractOutcome.ok w.frameFiles,
        w.frameFiles.map FsEvent.unlinkFrame ++ [FsEvent.unlinkTempInput])
    else (ExtractOutcome.thrown, [FsEvent.unlinkTempInput])

/-- Abstract state of one call of `extractGifFrames`: whether the single
ffmpeg run succeeds and the sorted `gifframe_*.jpg` listing afterwards. -/
structure GifWorld where
  extractOk : Bool
  frameFiles : List Str
deriving DecidableEq

/-- Translation of `extractGifFrames`: on failure the error propagates after
unlinking only the temporary input file; on success only the first
`numFrames` files of the sorted listing are read and unlinked. -/
def extractGifFrames (numFrames : Nat) (w : GifWorld) :
    ExtractOutcome × List FsEvent :=
  if w.extractOk then
    let taken := w.frameFiles.take numFrames
    (ExtractOutcome.ok taken, taken.map FsEvent.unlinkFrame ++ [FsEvent.unlinkTempInput])
  else (ExtractOutcome.thrown, [FsEvent.unlinkTempInput])

/-- Parsed response of the vision call on extracted frames. -/
structure VisionResp where
  flagged : Bool
  confidence : Rat

/-- Translation of `analyzeVideo`: no key, an extraction error (caught by the
outer try), an empty frame set, a failed or unparsable vision call, or a
low-confidence response all yield no verdict. -/
def analyzeVideo (hasKey : Bool) (vision : List Str → Option VisionResp)
    (w : VideoWorld) : Option Verdict :=
  if !hasKey then none
  else
    match extractVideoFrames w with
    | (ExtractOutcome.thrown, _) => none
    | (ExtractOutcome.ok frames, _) =>
      if frames.isEmpty then none
      else
        match vision frames with
        | none => none
        | some r =>
          if r.flagged ∧ (3 : Rat)/5 < r.confidence then
            some ⟨VerdictType.sensitive_video, Severity.high⟩
          else none

/-- Translation of `analyzeGif`, mirroring `analyzeVideo`. -/
def analyzeGif (hasKey : Bool) (vision : List Str → Option VisionResp)
    (w : GifWorld) : Option Verdict :=
  if !hasKey then none
  else
    match extractGifFrames 4 w with
    | (ExtractOutcome.thrown, _) => none
    | (ExtractOutcome.ok frames, _) =>
      if frames.isEmpty then none
      else
        match vision frames with
        | none => none
        | some r =>
          if r.flagged ∧ (3 : Rat)/5 < r.confidence then
            some ⟨VerdictType.sensitive_gif, Severity.high⟩
          else none

/-- Claim C1: the `verified_users` uniqueness constraint is on `phone` alone
(`phone TEXT UNIQUE`), so marking the same phone verified in a second room
replaces the first room's record, after which a further challenge is issued
for the original (phone, room) pair: the claimed persistence and per-pair
uniqueness fail on the code. Evaluation of the failing input. -/
theorem markUserVerified_replaces_other_room :
    (isUserVerified (r"31611111111".data) (r"roomA@g.us".data)
      (markUserVerified (r"31611111111".data) (r"roomA@g.us".data) 100 []) = true) ∧
    (isUserVerified (r"31611111111".data) (r"roomA@g.us".data)
      (markUserVerified (r"31611111111".data) (r"roomB@g.us".data) 200
        (markUserVerified (r"31611111111".data) (r"roomA@g.us".data) 100 [])) = false) ∧
    ((startVerification (r"31611111111".data) (r"roomA@g.us".data) (r"ABCDE".data) 5 300
      ⟨[], markUserVerified (r"31611111111".data) (r"roomB@g.us".data) 200
        (markUserVerified (r"31611111111".data) (r"roomA@g.us".data) 100 [])⟩).1 = true) := by
  decide

/-- Claim C2, counterexample: the caps gate in the code is on the whole
message length, not the alphabetic length. The text `AB!!!!!!!!` has length
10 but only 2 letters, yet the code returns an `excessive_caps` verdict,
which the claim (gate on alphabetic length at least 10) forbids. -/
theorem checkSimpleSpam_caps_gate_counterexample :
    (5 ≤ (r"AB!!!!!!!!".data).length) ∧
    (countLinks (r"AB!!!!!!!!".data) ≤ 3) ∧
    (((r"AB!!!!!!!!".data).filter Char.isAlpha).length < 10) ∧
    ((checkSimpleSpam (r"AB!!!!!!!!".data) (r"u1".data) (r"g1".data) 0 []).1 =
      some ⟨VerdictType.excessive_caps, Severity.low⟩) := by
  decide

/-- Claim C2, amended: for a message of length at least 5 with at most 3
URL-like substrings, the caps check yields the `excessive_caps` severity-low
verdict exactly when the whole message length is at least 10, the message
contains at least one letter, and the uppercase-to-letters ratio exceeds
0.7. -/
theorem checkSimpleSpam_caps_characterization
    (msg sender grp : Str) (now : Nat) (cache : RepeatCache)
    (hlen : 5 ≤ msg.length) (hlinks : countLinks msg ≤ 3) :
    ((checkSimpleSpam msg sender grp now cache).1 =
        some ⟨VerdictType.excessive_caps, Severity.low⟩) ↔
      (10 ≤ msg.length ∧ msg.filter Char.isAlpha ≠ [] ∧
        7 * (msg.filter Char.isAlpha).length <
          10 * ((msg.filter Char.isAlpha).filter Char.isUpper).length) := by
  unfold checkSimpleSpam
  rw [if_neg (by omega), if_neg (by omega)]
  by_cases hc : 10 ≤ msg.length ∧ msg.filter Char.isAlpha ≠ [] ∧
      7 * (msg.filter Char.isAlpha).length <
        10 * ((msg.filter Char.isAlpha).filter Char.isUpper).length
  · rw [if_pos hc]
    simpa using hc
  · rw [if_neg hc]
    simp only [hc, iff_false]
    cases cacheGet (repeatKey sender grp) (cleanRecentMessages now cache) with
    | none => simp
    | some e =>
      by_cases he : e.message = messageHash msg
      · simp only [he, if_true]
        by_cases h3 : 3 ≤ e.count + 1
        · simp [h3]
        · simp [h3]
      · simp [he]

/-- Claim C3, counterexample: when ffprobe rejects, `extractVideoFrames`
propagates the error instead of returning an empty set, and when the GIF
extraction run fails, frame artifacts on disk are not cleaned up: only the
temporary input file is. -/
theorem extractVideoFrames_probe_error_raises :
    ((extractVideoFrames ⟨none, true, true, []⟩).1 = ExtractOutcome.thrown) ∧
    ((extractGifFrames 4 ⟨false, [r"gifframe_1.jpg".data]⟩).1 = ExtractOutcome.thrown) ∧
    (FsEvent.unlinkFrame (r"gifframe_1.jpg".data) ∉
      (extractGifFrames 4 ⟨false, [r"gifframe_1.jpg".data]⟩).2) := by
  decide

/-- Claim C3, amended: both extractors attempt cleanup of the temporary input
file on every exit path, but on failure they propagate the error (instead of
returning an empty set) and clean no frame artifacts; on success exactly the
frames returned are cleaned; the enclosing analyzers catch the propagated
error and report no verdict, so the pipeline skips media analysis. -/
theorem extractFrames_cleanup_and_error_paths (w : VideoWorld) (g : GifWorld) :
    FsEvent.unlinkTempInput ∈ (extractVideoFrames w).2 ∧
    FsEvent.unlinkTempInput ∈ (extractGifFrames 4 g).2 ∧
    ((extractVideoFrames w).1 = ExtractOutcome.thrown →
      (extractVideoFrames w).2 = [FsEvent.unlinkTempInput]) ∧
    ((extractGifFrames 4 g).1 = ExtractOutcome.thrown →
      (extractGifFrames 4 g).2 = [FsEvent.unlinkTempInput]) ∧
    (∀ fr, (extractVideoFrames w).1 = ExtractOutcome.ok fr →
      (extractVideoFrames w).2 = fr.map FsEvent.unlinkFrame ++ [FsEvent.unlinkTempInput]) ∧
    (∀ fr, (extractGifFrames 4 g).1 = ExtractOutcome.ok fr →
      (extractGifFrames 4 g).2 = fr.map FsEvent.unlinkFrame ++ [FsEvent.unlinkTempInput]) ∧
    (∀ hasKey vision, (extractVideoFrames w).1 = ExtractOutcome.thrown →
      analyzeVideo hasKey vision w = none) ∧
    (∀ hasKey vision, (extractGifFrames 4 g).1 = ExtractOutcome.thrown →
      analyzeGif hasKey vision g = none) := by
  obtain ⟨pd, p1, p2, fF⟩ := w
  obtain ⟨gok, gf⟩ := g
  cases pd <;> cases p1 <;> cases p2 <;> cases gok <;>
    simp [extractVideoFrames, extractGifFrames, analyzeVideo, analyzeGif]

/-- Claim C3, witness: the amended theorem applied at the counterexample
worlds. -/
theorem extractFrames_cleanup_and_error_paths_witness :
    (extractVideoFrames ⟨none, true, true, []⟩).2 = [FsEvent.unlinkTempInput] ∧
    analyzeGif true (fun _ => none) ⟨false, []⟩ = none :=
  ⟨(extractFrames_cleanup_and_error_paths ⟨none, true, true, []⟩ ⟨false, []⟩).2.2.1
      (by decide),
   (extractFrames_cleanup_and_error_paths ⟨none, true, true, []⟩ ⟨false, []⟩).2.2.2.2.2.2.2
      true (fun _ => none) (by decide)⟩

/-- Unfolding of `checkSimpleSpam` once the link and caps checks pass: only
the repeat check remains. -/
theorem checkSimpleSpam_pass (msg sender grp : Str) (now : Nat) (cache : RepeatCache)
    (h5 : ¬ msg.length < 5) (hl : ¬ 3 < countLinks msg)
    (hc : ¬(10 ≤ msg.length ∧ msg.filter Char.isAlpha ≠ [] ∧
      7 * (msg.filter Char.isAlpha).length <
        10 * ((msg.filter Char.isAlpha).filter Char.isUpper).length)) :
    checkSimpleSpam msg sender grp now cache =
      match cacheGet (repeatKey sender grp) (cleanRecentMessages now cache) with
      | some e =>
        if e.message = messageHash msg then
          if 3 ≤ e.count + 1 then
            (some ⟨VerdictType.repeated_message, Severity.medium⟩,
             cacheSet (repeatKey sender grp) ⟨e.message, e.count + 1, now⟩
               (cleanRecentMessages now cache))
          else
            (none, cacheSet (repeatKey sender grp) ⟨e.message, e.count + 1, now⟩
              (cleanRecentMessages now cache))
        else
          (none, cacheSet (repeatKey sender grp) ⟨messageHash msg, 1, now⟩
            (cleanRecentMessages now cache))
      | none =>
        (none, cacheSet (repeatKey sender grp) ⟨messageHash msg, 1, now⟩
          (cleanRecentMessages now cache)) := by
  unfold checkSimpleSpam
  rw [if_neg h5, if_neg hl, if_neg hc]

/-- Claim C10: an `excessive_links` or `excessive_caps` verdict, or a message
empty or shorter than 5 characters, leaves the repeat cache entirely
unchanged; the cache is touched only when the link and caps checks both
pass. -/
theorem checkSimpleSpam_cache_untouched (msg sender grp : Str) (now : Nat)
    (cache : RepeatCache) :
    (msg.length < 5 → checkSimpleSpam msg sender grp now cache = (none, cache)) ∧
    (∀ v, (checkSimpleSpam msg sender grp now cache).1 = some v →
      (v.type = VerdictType.excessive_links ∨ v.type = VerdictType.excessive_caps) →
      (checkSimpleSpam msg sender grp now cache).2 = cache) := by
  by_cases h5 : msg.length < 5
  · refine ⟨fun _ => ?_, fun v _ _ => ?_⟩ <;> · unfold checkSimpleSpam; rw [if_pos h5]
  · refine ⟨fun h => absurd h h5, ?_⟩
    by_cases hl : 3 < countLinks msg
    · intro v _ _
      unfold checkSimpleSpam
      rw [if_neg h5, if_pos hl]
    · by_cases hc : 10 ≤ msg.length ∧ msg.filter Char.isAlpha ≠ [] ∧
        7 * (msg.filter Char.isAlpha).length <
          10 * ((msg.filter Char.isAlpha).filter Char.isUpper).length
      · intro v _ _
        unfold checkSimpleSpam
        rw [if_neg h5, if_neg hl, if_pos hc]
      · intro v hv hty
        rw [checkSimpleSpam_pass msg sender grp now cache h5 hl hc] at hv
        exfalso
        split at hv
        · split at hv
          · split at hv
            · simp only [Option.some.injEq] at hv
              rw [← hv] at hty
              simp at hty
            · simp at hv
          · simp at hv
        · simp at hv

/-- Claim C10, witness: the cache is untouched at a four-link message and at
a short message. -/
theorem checkSimpleSpam_cache_untouched_witness :
    (checkSimpleSpam (r"go http://a http://b http://c http://d".data)
      (r"u1".data) (r"g1".data) 0
      [(r"u1:g1".data, ⟨r"x".data, 1, 0⟩)]).2 =
        [(r"u1:g1".data, ⟨r"x".data, 1, 0⟩)] ∧
    checkSimpleSpam (r"hey".data) (r"u1".data) (r"g1".data) 0
      [(r"u1:g1".data, ⟨r"x".data, 1, 0⟩)] =
        (none, [(r"u1:g1".data, ⟨r"x".data, 1, 0⟩)]) :=
  ⟨(checkSimpleSpam_cache_untouched (r"go http://a http://b http://c http://d".data)
      (r"u1".data) (r"g1".data) 0 [(r"u1:g1".data, ⟨r"x".data, 1, 0⟩)]).2
      ⟨VerdictType.excessive_links, Severity.medium⟩ (by decide) (Or.inl rfl),
   (checkSimpleSpam_cache_untouched (r"hey".data) (r"u1".data) (r"g1".data) 0
      [(r"u1:g1".data, ⟨r"x".data, 1, 0⟩)]).1 (by decide)⟩

/-- Claim C7: a pending record created with timeout `T` minutes is retrievable
through the pending lookup exactly while `now < created_at + 60 * T` seconds,
belongs to the expired set exactly from that instant on, and no record is
ever simultaneously retrievable and expired. -/
theorem pendingVerification_retrievable_until_expiry
    (phone grp code : Str) (T now : Nat) (db : List PendingRec)
    (hcode : code ≠ []) :
    (∀ t, (getPendingVerification phone grp t (addPendingCaptcha phone grp code T now db) =
        some ⟨phone, grp, code.map Char.toUpper, now, now + 60 * T⟩) ↔ t < now + 60 * T) ∧
    (∀ t, ((⟨phone, grp, code.map Char.toUpper, now, now + 60 * T⟩ : PendingRec) ∈
        getExpiredVerifications t (addPendingCaptcha phone grp code T now db)) ↔
          now + 60 * T ≤ t) ∧
    (∀ t r (db₂ : List PendingRec), getPendingVerification phone grp t db₂ = some r →
      r ∉ getExpiredVerifications t db₂) := by
  have hdb : addPendingCaptcha phone grp code T now db =
      (⟨phone, grp, code.map Char.toUpper, now, now + 60 * T⟩ : PendingRec) ::
        db.filter (fun r => !(r.phone = phone ∧ r.group_id = grp)) := by
    unfold addPendingCaptcha
    rw [if_neg hcode]
  refine ⟨?_, ?_, ?_⟩
  · intro t
    rw [hdb]
    unfold getPendingVerification
    by_cases ht : t < now + 60 * T
    · rw [List.find?_cons_of_pos _ (by simp [ht])]
      simp [ht]
    · rw [List.find?_cons_of_neg _ (by simp [ht])]
      simp only [ht, iff_false]
      have hnone : (db.filter (fun r => !(r.phone = phone ∧ r.group_id = grp))).find?
          (fun r => decide (r.phone = phone ∧ r.group_id = grp ∧ t < r.expires_at)) =
            none := by
        rw [List.find?_eq_none]
        intro r hr
        have hnr := (List.mem_filter.mp hr).2
        simp only [Bool.not_eq_true', decide_eq_false_iff_not] at hnr
        simp only [decide_eq_true_eq]
        intro hcon
        exact hnr ⟨hcon.1, hcon.2.1⟩
      rw [hnone]
      simp
  · intro t
    rw [hdb]
    unfold getExpiredVerifications
    rw [List.mem_filter]
    simp
  · intro t r db₂ hfind hmem
    unfold getPendingVerification at hfind
    unfold getExpiredVerifications at hmem
    have hp := List.find?_some hfind
    have hm := (List.mem_filter.mp hmem).2
    simp only [decide_eq_true_eq] at hp hm
    omega

/-- Claim C7, witness at a 5-minute timeout created at time 0: retrievable at
299 seconds, expired at 300 seconds. -/
theorem pendingVerification_retrievable_until_expiry_witness :
    ((getPendingVerification (r"31611".data) (r"g1".data) 299
        (addPendingCaptcha (r"31611".data) (r"g1".data) (r"ab4de".data) 5 0 []) =
      some ⟨r"31611".data, r"g1".data, (r"ab4de".data).map Char.toUpper, 0, 0 + 60 * 5⟩) ↔
        299 < 0 + 60 * 5) ∧
    (((⟨r"31611".data, r"g1".data, (r"ab4de".data).map Char.toUpper, 0, 0 + 60 * 5⟩ :
        PendingRec) ∈
      getExpiredVerifications 300
        (addPendingCaptcha (r"31611".data) (r"g1".data) (r"ab4de".data) 5 0 [])) ↔
        0 + 60 * 5 ≤ 300) :=
  ⟨(pendingVerification_retrievable_until_expiry (r"31611".data) (r"g1".data)
      (r"ab4de".data) 5 0 [] (by decide)).1 299,
   (pendingVerification_retrievable_until_expiry (r"31611".data) (r"g1".data)
      (r"ab4de".data) 5 0 [] (by decide)).2.1 300⟩

/-- Claim C9: when every pending record for the sender's (phone, room) pair
has `expires_at <= now`, `checkVerificationAnswer` returns null and leaves
both stores untouched, whatever text was submitted (including the exact
challenge code): the expiry is enforced by the lookup itself. -/
theorem checkVerificationAnswer_expired_null
    (senderJid msgText grp : Str) (now : Nat) (st : VerifState)
    (hexp : ∀ r ∈ st.pending, r.phone = jidToPhone senderJid → r.group_id = grp →
      r.expires_at ≤ now) :
    checkVerificationAnswer senderJid msgText grp now st = (none, st) := by
  have hnone : getPendingVerification (jidToPhone senderJid) grp now st.pending = none := by
    unfold getPendingVerification
    rw [List.find?_eq_none]
    intro r hr
    simp only [decide_eq_true_eq]
    intro hcon
    have := hexp r hr hcon.1 hcon.2.1
    omega
  unfold checkVerificationAnswer
  simp only [hnone]

/-- Claim C9, witness: a record that expired at exactly `now`, answered with
the exact stored code, still yields null and unchanged stores. -/
theorem checkVerificationAnswer_expired_null_witness :
    checkVerificationAnswer (r"31611".data) (r"AB4DE".data) (r"g1".data) 300
      ⟨[⟨r"31611".data, r"g1".data, r"AB4DE".data, 0, 300⟩], []⟩ =
      (none, ⟨[⟨r"31611".data, r"g1".data, r"AB4DE".data, 0, 300⟩], []⟩) :=
  checkVerificationAnswer_expired_null (r"31611".data) (r"AB4DE".data) (r"g1".data) 300
    ⟨[⟨r"31611".data, r"g1".data, r"AB4DE".data, 0, 300⟩], []⟩ (by decide)

/-- The sweep loop emits, for each record in order, exactly one timeout
notice and one removal attempt, independently of the call outcomes. -/
theorem sweepLoop_events (w : SweepWorld) (l : List PendingRec) :
    (sweepLoop w l).1 = l.flatMap (fun r =>
      [SweepEvent.sendTimeout r.group_id,
       SweepEvent.kickAttempt (participantJid r.phone) r.group_id]) := by
  induction l with
  | nil => rfl
  | cons r rest ih => simp [sweepLoop, sweepOne, ih]

/-- Claim C6: the sweep attempts exactly one removal per expired record, in
order; the event trace (hence the processing of the remaining records) does
not depend on any removal or send outcome; and after the run every expired
record is deleted from the store whatever its removal outcome was. -/
theorem processExpiredVerifications_sweep (w : SweepWorld) (t1 t2 : Nat)
    (db : List PendingRec) (h12 : t1 ≤ t2) :
    ((processExpiredVerifications w t1 t2 db).2.1 =
      (getExpiredVerifications t1 db).flatMap (fun r =>
        [SweepEvent.sendTimeout r.group_id,
         SweepEvent.kickAttempt (participantJid r.phone) r.group_id])) ∧
    (∀ w', (processExpiredVerifications w' t1 t2 db).2.1 =
      (processExpiredVerifications w t1 t2 db).2.1) ∧
    (∀ r ∈ getExpiredVerifications t1 db,
      r ∉ (processExpiredVerifications w t1 t2 db).2.2) := by
  refine ⟨?_, ?_, ?_⟩
  · simpa [processExpiredVerifications] using
      sweepLoop_events w (getExpiredVerifications t1 db)
  · intro w'
    simp [processExpiredVerifications, sweepLoop_events]
  · intro r hr hmem
    have h1 := (List.mem_filter.mp hr).2
    have h2 := (List.mem_filter.mp hmem).2
    simp only [decide_eq_true_eq, Bool.not_eq_true', decide_eq_false_iff_not] at h1 h2
    omega

/-- Claim C6, witness: two expired records, the first removal failing; both
records are attempted and both are deleted. -/
theorem processExpiredVerifications_sweep_witness :
    ((processExpiredVerifications
        ⟨fun _ => true, fun r => !(r.phone = r"31601".data)⟩ 100 100
        [⟨r"31601".data, r"g1".data, r"AAA11".data, 0, 60⟩,
         ⟨r"31602".data, r"g1".data, r"BBB22".data, 0, 90⟩]).2.1 =
      (getExpiredVerifications 100
        [⟨r"31601".data, r"g1".data, r"AAA11".data, 0, 60⟩,
         ⟨r"31602".data, r"g1".data, r"BBB22".data, 0, 90⟩]).flatMap (fun r =>
        [SweepEvent.sendTimeout r.group_id,
         SweepEvent.kickAttempt (participantJid r.phone) r.group_id])) ∧
    ((⟨r"31601".data, r"g1".data, r"AAA11".data, 0, 60⟩ : PendingRec) ∉
      (processExpiredVerifications
        ⟨fun _ => true, fun r => !(r.phone = r"31601".data)⟩ 100 100
        [⟨r"31601".data, r"g1".data, r"AAA11".data, 0, 60⟩,
         ⟨r"31602".data, r"g1".data, r"BBB22".data, 0, 90⟩]).2.2) :=
  ⟨(processExpiredVerifications_sweep
      ⟨fun _ => true, fun r => !(r.phone = r"31601".data)⟩ 100 100
      [⟨r"31601".data, r"g1".data, r"AAA11".data, 0, 60⟩,
       ⟨r"31602".data, r"g1".data, r"BBB22".data, 0, 90⟩] (by decide)).1,
   (processExpiredVerifications_sweep
      ⟨fun _ => true, fun r => !(r.phone = r"31601".data)⟩ 100 100
      [⟨r"31601".data, r"g1".data, r"AAA11".data, 0, 60⟩,
       ⟨r"31602".data, r"g1".data, r"BBB22".data, 0, 90⟩] (by decide)).2.2
      ⟨r"31601".data, r"g1".data, r"AAA11".data, 0, 60⟩ (by decide)⟩

/-- Lookup after an id-preserving entrywise update. -/
theorem getById_map (f : LogEntry → LogEntry) (hid : ∀ e, (f e).id = e.id)
    (db : List LogEntry) (i : Nat) :
    getModerationLogById (db.map f) i = (getModerationLogById db i).map f := by
  induction db with
  | nil => rfl
  | cons x xs ih =>
    unfold getModerationLogById at ih ⊢
    rw [List.map_cons]
    by_cases hx : x.id = i
    · rw [List.find?_cons_of_pos _ (by simp [hid, hx]),
        List.find?_cons_of_pos _ (by simp [hx])]
      rfl
    · rw [List.find?_cons_of_neg _ (by simp [hid, hx]),
        List.find?_cons_of_neg _ (by simp [hx])]
      exact ih

/-- The restore handler either leaves the store alone or marks exactly the
requested entry. -/
theorem restoreMessage_db_cases (c s : Bool) (db : List LogEntry) (i : Nat) :
    (restoreMessage c s db i).2 = db ∨
      (restoreMessage c s db i).2 = markMessageRestored db i := by
  unfold restoreMessage
  rcases h : getModerationLogById db i with _ | e
  · exact Or.inl rfl
  · by_cases h1 : e.restored <;> by_cases h2 : c <;> by_cases h3 : s <;>
      simp [h1, h2, h3]

/-- The restored flag is monotone: no ledger operation ever resets it to
false on an entry that still exists. -/
theorem ledger_restored_monotone (op : LedgerOp) (db : List LogEntry) (i : Nat)
    (e₁ e₂ : LogEntry) (h1 : getModerationLogById db i = some e₁)
    (h2 : e₁.restored = true)
    (h3 : getModerationLogById (applyLedgerOp op db) i = some e₂) :
    e₂.restored = true := by
  have hmark : ∀ db' j, getModerationLogById (markMessageRestored db' j) i =
      (getModerationLogById db' i).map
        (fun e => if e.id = j then { e with restored := true } else e) := by
    intro db' j
    exact getById_map _ (fun e => by by_cases h : e.id = j <;> simp [h]) db' i
  cases op with
  | logNew g p b =>
    simp only [applyLedgerOp, logModeration] at h3
    unfold getModerationLogById at h1 h3
    rw [List.find?_append, h1, Option.or_some] at h3
    cases h3
    exact h2
  | restore c s j =>
    have hcase := restoreMessage_db_cases c s db j
    simp only [applyLedgerOp] at h3
    rcases hcase with hdb | hdb
    · rw [hdb, h1] at h3
      cases h3
      exact h2
    · rw [hdb, hmark, h1] at h3
      simp only [Option.map_some'] at h3
      cases h3
      by_cases hj : e₁.id = j <;> simp [hj, h2]
  | markRestored j =>
    simp only [applyLedgerOp] at h3
    rw [hmark, h1] at h3
    simp only [Option.map_some'] at h3
    cases h3
    by_cases hj : e₁.id = j <;> simp [hj, h2]
  | setAdminResponse j resp =>
    simp only [applyLedgerOp] at h3
    unfold updateModerationResponse at h3
    rw [getById_map _ (fun e => by by_cases h : e.id = j <;> simp [h]) db i, h1] at h3
    simp only [Option.map_some'] at h3
    cases h3
    by_cases hj : e₁.id = j <;> simp [hj, h2]
  | clearAll =>
    simp [applyLedgerOp, clearModerationLogs, getModerationLogById] at h3

/-- Claim C8: on an unrestored entry, a connected restore with a successful
resend succeeds and flips the flag; a second restore call on the same entry
fails with the already-restored outcome and changes nothing, whatever the
connection or send outcomes; and the restored flag is monotone under every
ledger operation. -/
theorem restoreMessage_once_then_already (db : List LogEntry) (i : Nat)
    (e : LogEntry) (hfind : getModerationLogById db i = some e)
    (hnr : e.restored = false) :
    ((restoreMessage true true db i).1 = RestoreResult.ok) ∧
    (getModerationLogById (restoreMessage true true db i).2 i =
      some { e with restored := true }) ∧
    (∀ c s, restoreMessage c s (restoreMessage true true db i).2 i =
      (RestoreResult.failed RestoreError.alreadyRestored,
        (restoreMessage true true db i).2)) ∧
    (∀ op db₂ j e₁ e₂, getModerationLogById db₂ j = some e₁ → e₁.restored = true →
      getModerationLogById (applyLedgerOp op db₂) j = some e₂ →
      e₂.restored = true) := by
  have hid : e.id = i := by simpa using List.find?_some hfind
  have hred : restoreMessage true true db i =
      (RestoreResult.ok, markMessageRestored db i) := by
    unfold restoreMessage
    rw [hfind]
    simp [hnr]
  have hget : getModerationLogById (markMessageRestored db i) i =
      some { e with restored := true } := by
    have hmap := getById_map
      (fun e' => if e'.id = i then { e' with restored := true } else e')
      (fun e' => by by_cases h : e'.id = i <;> simp [h]) db i
    unfold markMessageRestored
    rw [hmap, hfind]
    simp [hid]
  refine ⟨by rw [hred], by rw [hred]; exact hget, ?_, ?_⟩
  · intro c s
    rw [hred]
    unfold restoreMessage
    rw [hget]
    rfl
  · intro op db₂ j e₁ e₂ ha hb hc
    exact ledger_restored_monotone op db₂ j e₁ e₂ ha hb hc

/-- Claim C8, witness: a one-entry ledger; the first restore succeeds, the
second fails as already restored. -/
theorem restoreMessage_once_then_already_witness :
    ((restoreMessage true true
        [⟨1, r"g1".data, r"31611".data, r"hello".data, false, none⟩] 1).1 =
      RestoreResult.ok) ∧
    (restoreMessage false false
      (restoreMessage true true
        [⟨1, r"g1".data, r"31611".data, r"hello".data, false, none⟩] 1).2 1 =
      (RestoreResult.failed RestoreError.alreadyRestored,
        (restoreMessage true true
          [⟨1, r"g1".data, r"31611".data, r"hello".data, false, none⟩] 1).2)) :=
  ⟨(restoreMessage_once_then_already
      [⟨1, r"g1".data, r"31611".data, r"hello".data, false, none⟩] 1
      ⟨1, r"g1".data, r"31611".data, r"hello".data, false, none⟩
      (by decide) (by decide)).1,
   (restoreMessage_once_then_already
      [⟨1, r"g1".data, r"31611".data, r"hello".data, false, none⟩] 1
      ⟨1, r"g1".data, r"31611".data, r"hello".data, false, none⟩
      (by decide) (by decide)).2.2.1 false false⟩

/-- Claim C2, witness for the amended characterization at the spec's own
example text. -/
theorem checkSimpleSpam_caps_characterization_witness :
    5 ≤ (r"THIS IS ALL CAPS TEXT".data).length ∧
    (((checkSimpleSpam (r"THIS IS ALL CAPS TEXT".data) (r"u1".data) (r"g1".data) 0 []).1 =
        some ⟨VerdictType.excessive_caps, Severity.low⟩) ↔
      (10 ≤ (r"THIS IS ALL CAPS TEXT".data).length ∧
        (r"THIS IS ALL CAPS TEXT".data).filter Char.isAlpha ≠ [] ∧
        7 * ((r"THIS IS ALL CAPS TEXT".data).filter Char.isAlpha).length <
          10 * (((r"THIS IS ALL CAPS TEXT".data).filter Char.isAlpha).filter
            Char.isUpper).length)) :=
  ⟨by decide,
   checkSimpleSpam_caps_characterization _ _ _ _ _ (by decide) (by decide)⟩

example : countLinks (r"check this out http://a http://b http://c http://d".data) = 4 := by decide

example : countLinks (r"hello world".data) = 0 := by decide

example : (checkSimpleSpam (r"THIS IS ALL CAPS TEXT".data) (r"1".data) (r"g".data) 0 []).1 =
    some ⟨VerdictType.excessive_caps, Severity.low⟩ := by decide

example : (checkSimpleSpam (r"AB!!!!!!!!".data) (r"1".data) (r"g".data) 0 []).1 =
    some ⟨VerdictType.excessive_caps, Severity.low⟩ := by decide

@[simp]
theorem runFirstVerdict_nil (msg : Str) (cache : RepeatCache) :
    runFirstVerdict msg [] cache = (none, cache, []) := rfl

@[simp]
theorem runFirstVerdict_cons (msg : Str) (s : SpecStage) (rest : List SpecStage)
    (cache : RepeatCache) :
    runFirstVerdict msg (s :: rest) cache =
      match s.run msg cache with
      | (some v, cache') => (some v, cache', [s.tag])
      | (none, cache') =>
        let r := runFirstVerdict msg rest cache'
        (r.1, r.2.1, s.tag :: r.2.2) := rfl

/-- Claim C4, counterexample: on the text `politics` (no spam, external
classifiers silent) the `src/moderation.js` pipeline returns a
`sensitive_topic` verdict from a sensitive-keyword stage that the claimed
three-stage path does not contain, and its stage trace differs from the
claimed trace. -/
theorem moderateMessageJs_keyword_stage_diverges :
    ((moderateMessageJs envNone (r"politics".data) (r"u1".data) (r"g1".data) 0 []).1 =
      some ⟨VerdictType.sensitive_topic, Severity.high⟩) ∧
    ((specTextPath envNone (r"politics".data) (r"u1".data) (r"g1".data) 0 []).1 =
      none) ∧
    ((moderateMessageJs envNone (r"politics".data) (r"u1".data) (r"g1".data) 0 []).2.2 ≠
      (specTextPath envNone (r"politics".data) (r"u1".data) (r"g1".data) 0 []).2.2) := by
  decide

/-- Claim C4, amended: the `part_000` text path is exactly the claimed
first-verdict-terminal chain heuristic-spam, toxic-classify, then (only for
texts longer than 20) topic-classify; the `src/moderation.js` text path is
the same chain with a sensitive-keyword stage inserted after
heuristic-spam. -/
theorem moderateMessage_text_path_stages (env : ModEnv) (msg sender grp : Str)
    (now : Nat) (cache : RepeatCache) :
    (moderateMessageP0 env msg sender grp now cache =
      specTextPath env msg sender grp now cache) ∧
    (moderateMessageJs env msg sender grp now cache =
      specTextPathKw env msg sender grp now cache) := by
  constructor <;>
  · by_cases hlen : 20 < msg.length <;>
      rcases hs : checkSimpleSpam msg sender grp now cache with ⟨_ | sv, c'⟩ <;>
      rcases hk : checkSensitiveKeywords msg with _ | kv <;>
      rcases ht : checkToxicContent env msg with _ | tv <;>
      rcases hc : checkSensitiveContent env msg with _ | cv <;>
      simp [moderateMessageP0, moderateMessageJs, specTextPath, specTextPathKw,
        specTextStages, specTextStagesKw, hlen, hs, hk, ht, hc]

theorem cacheGet_none_clean (k : Str) (t : Nat) (c : RepeatCache)
    (h : cacheGet k c = none) : cacheGet k (cleanRecentMessages t c) = none := by
  unfold cacheGet at h ⊢
  rw [Option.map_eq_none'] at h ⊢
  rw [List.find?_eq_none] at h ⊢
  intro p hp
  exact h p (List.mem_of_mem_filter hp)

theorem cacheSet_mem_self (k : Str) (v : RepeatEntry) (c : RepeatCache) :
    (k, v) ∈ cacheSet k v c := by
  unfold cacheSet
  split
  · next hany =>
    rw [List.any_eq_true] at hany
    obtain ⟨p, hp, hpk⟩ := hany
    simp only [decide_eq_true_eq] at hpk
    exact List.mem_map.mpr ⟨p, hp, by simp [hpk]⟩
  · simp

theorem cacheSet_key_eq (k : Str) (v : RepeatEntry) (c : RepeatCache) :
    ∀ p ∈ cacheSet k v c, p.1 = k → p = (k, v) := by
  intro p hp hk
  unfold cacheSet at hp
  split at hp
  · rw [List.mem_map] at hp
    obtain ⟨q, hq, hfq⟩ := hp
    by_cases hqk : q.1 = k
    · rw [← hfq]; simp [hqk]
    · rw [← hfq] at hk
      simp [hqk] at hk
  · next hany =>
    rw [List.mem_append] at hp
    rcases hp with hp | hp
    · exact absurd (List.any_eq_true.mpr ⟨p, hp, by simpa using hk⟩) hany
    · simpa using hp

theorem cacheGet_cacheSet (k : Str) (v : RepeatEntry) (c : RepeatCache) :
    cacheGet k (cacheSet k v c) = some v := by
  unfold cacheGet
  rcases hfind : (cacheSet k v c).find? (fun p => p.1 = k) with _ | q
  · exfalso
    rw [List.find?_eq_none] at hfind
    exact hfind _ (cacheSet_mem_self k v c) (by simp)
  · have h1 := List.find?_some hfind
    have h2 := List.mem_of_find?_eq_some hfind
    have h3 := cacheSet_key_eq k v c q h2 (by simpa using h1)
    rw [hfind, h3]
    rfl

theorem cacheGet_clean_cacheSet (k : Str) (v : RepeatEntry) (t : Nat)
    (c : RepeatCache) :
    cacheGet k (cleanRecentMessages t (cacheSet k v c)) =
      if 60000 < t - v.lastTime then none else some v := by
  by_cases hfresh : 60000 < t - v.lastTime
  · rw [if_pos hfresh]
    unfold cacheGet
    have hnone : (cleanRecentMessages t (cacheSet k v c)).find? (fun p => p.1 = k) =
        none := by
      rw [List.find?_eq_none]
      intro p hp
      unfold cleanRecentMessages at hp
      rw [List.mem_filter] at hp
      obtain ⟨hmem, hsurv⟩ := hp
      simp only [decide_eq_true_eq]
      intro hk
      rw [cacheSet_key_eq k v c p hmem hk] at hsurv
      simp [hfresh] at hsurv
    rw [hnone]
    rfl
  · rw [if_neg hfresh]
    unfold cacheGet
    have hex : (k, v) ∈ cleanRecentMessages t (cacheSet k v c) := by
      unfold cleanRecentMessages
      rw [List.mem_filter]
      exact ⟨cacheSet_mem_self k v c, by simpa using hfresh⟩
    rcases hfind : (cleanRecentMessages t (cacheSet k v c)).find? (fun p => p.1 = k)
        with _ | q
    · exfalso
      rw [List.find?_eq_none] at hfind
      exact hfind _ hex (by simp)
    · have h1 := List.find?_some hfind
      have h2 := List.mem_of_find?_eq_some hfind
      have h3 := cacheSet_key_eq k v c q
        (by
          unfold cleanRecentMessages at h2
          exact List.mem_of_mem_filter h2)
        (by simpa using h1)
      rw [hfind, h3]
      rfl

/-- A repeat-check call that finds the same normalized message: increment the
count, refresh the timestamp, and report a violation exactly from the third
occurrence on. -/
theorem checkSimpleSpam_hit (msg sender grp : Str) (now cnt tPrev : Nat)
    (c : RepeatCache)
    (h5 : ¬ msg.length < 5) (hl : ¬ 3 < countLinks msg)
    (hc : ¬(10 ≤ msg.length ∧ msg.filter Char.isAlpha ≠ [] ∧
      7 * (msg.filter Char.isAlpha).length <
        10 * ((msg.filter Char.isAlpha).filter Char.isUpper).length))
    (hget : cacheGet (repeatKey sender grp) (cleanRecentMessages now c) =
      some ⟨messageHash msg, cnt, tPrev⟩) :
    checkSimpleSpam msg sender grp now c =
      (if 3 ≤ cnt + 1 then some ⟨VerdictType.repeated_message, Severity.medium⟩
       else none,
       cacheSet (repeatKey sender grp) ⟨messageHash msg, cnt + 1, now⟩
         (cleanRecentMessages now c)) := by
  rw [checkSimpleSpam_pass msg sender grp now c h5 hl hc, hget]
  by_cases h3 : 3 ≤ cnt + 1 <;> simp [h3]

/-- A repeat-check call that finds a different normalized message: reset the
entry to count one. -/
theorem checkSimpleSpam_miss (msg sender grp : Str) (now : Nat) (e : RepeatEntry)
    (c : RepeatCache)
    (h5 : ¬ msg.length < 5) (hl : ¬ 3 < countLinks msg)
    (hc : ¬(10 ≤ msg.length ∧ msg.filter Char.isAlpha ≠ [] ∧
      7 * (msg.filter Char.isAlpha).length <
        10 * ((msg.filter Char.isAlpha).filter Char.isUpper).length))
    (hget : cacheGet (repeatKey sender grp) (cleanRecentMessages now c) = some e)
    (hne : e.message ≠ messageHash msg) :
    checkSimpleSpam msg sender grp now c =
      (none, cacheSet (repeatKey sender grp) ⟨messageHash msg, 1, now⟩
        (cleanRecentMessages now c)) := by
  rw [checkSimpleSpam_pass msg sender grp now c h5 hl hc, hget]
  simp [hne]

/-- A repeat-check call with no cache entry for the key: create one with
count one. -/
theorem checkSimpleSpam_fresh (msg sender grp : Str) (now : Nat) (c : RepeatCache)
    (h5 : ¬ msg.length < 5) (hl : ¬ 3 < countLinks msg)
    (hc : ¬(10 ≤ msg.length ∧ msg.filter Char.isAlpha ≠ [] ∧
      7 * (msg.filter Char.isAlpha).length <
        10 * ((msg.filter Char.isAlpha).filter Char.isUpper).length))
    (hget : cacheGet (repeatKey sender grp) (cleanRecentMessages now c) = none) :
    checkSimpleSpam msg sender grp now c =
      (none, cacheSet (repeatKey sender grp) ⟨messageHash msg, 1, now⟩
        (cleanRecentMessages now c)) := by
  rw [checkSimpleSpam_pass msg sender grp now c h5 hl hc, hget]

/-- Either a freshly set entry is evicted by a later clean, or it is returned
unchanged. -/
theorem cacheGet_clean_cacheSet_cases (sender grp : Str) (v : RepeatEntry)
    (t : Nat) (c : RepeatCache) :
    cacheGet (repeatKey sender grp)
        (cleanRecentMessages t (cacheSet (repeatKey sender grp) v c)) = none ∨
      cacheGet (repeatKey sender grp)
        (cleanRecentMessages t (cacheSet (repeatKey sender grp) v c)) = some v := by
  rw [cacheGet_clean_cacheSet]
  by_cases hst : 60000 < t - v.lastTime
  · exact Or.inl (if_pos hst)
  · exact Or.inr (if_neg hst)

/-- Claim C5: from a cache with no entry for the (sender, room) key, the same
message sent three times inside the 60-second window yields no verdict on
the first two occurrences and a severity-medium `repeated_message` verdict
exactly on the third; a differing message then resets the entry to count
one; and a subsequent identical message, whether or not the window has
expired meanwhile, starts a fresh count of one with no verdict — the old
streak does not resume. -/
theorem repeated_message_streak
    (msg d sender grp : Str) (t1 t2 t3 t4 t5 : Nat) (cache : RepeatCache)
    (h5 : ¬ msg.length < 5) (hl : ¬ 3 < countLinks msg)
    (hc : ¬(10 ≤ msg.length ∧ msg.filter Char.isAlpha ≠ [] ∧
      7 * (msg.filter Char.isAlpha).length <
        10 * ((msg.filter Char.isAlpha).filter Char.isUpper).length))
    (hd5 : ¬ d.length < 5) (hdl : ¬ 3 < countLinks d)
    (hdc : ¬(10 ≤ d.length ∧ d.filter Char.isAlpha ≠ [] ∧
      7 * (d.filter Char.isAlpha).length <
        10 * ((d.filter Char.isAlpha).filter Char.isUpper).length))
    (hne : messageHash d ≠ messageHash msg)
    (h0 : cacheGet (repeatKey sender grp) cache = none)
    (h12 : t2 - t1 ≤ 60000) (h23 : t3 - t2 ≤ 60000) :
    (checkSimpleSpam msg sender grp t1 cache).1 = none ∧
    (checkSimpleSpam msg sender grp t2
      (checkSimpleSpam msg sender grp t1 cache).2).1 = none ∧
    (checkSimpleSpam msg sender grp t3
      (checkSimpleSpam msg sender grp t2
        (checkSimpleSpam msg sender grp t1 cache).2).2).1 =
      some ⟨VerdictType.repeated_message, Severity.medium⟩ ∧
    (checkSimpleSpam d sender grp t4
      (checkSimpleSpam msg sender grp t3
        (checkSimpleSpam msg sender grp t2
          (checkSimpleSpam msg sender grp t1 cache).2).2).2).1 = none ∧
    cacheGet (repeatKey sender grp)
      (checkSimpleSpam d sender grp t4
        (checkSimpleSpam msg sender grp t3
          (checkSimpleSpam msg sender grp t2
            (checkSimpleSpam msg sender grp t1 cache).2).2).2).2 =
      some ⟨messageHash d, 1, t4⟩ ∧
    (checkSimpleSpam msg sender grp t5
      (checkSimpleSpam d sender grp t4
        (checkSimpleSpam msg sender grp t3
          (checkSimpleSpam msg sender grp t2
            (checkSimpleSpam msg sender grp t1 cache).2).2).2).2).1 = none ∧
    cacheGet (repeatKey sender grp)
      (checkSimpleSpam msg sender grp t5
        (checkSimpleSpam d sender grp t4
          (checkSimpleSpam msg sender grp t3
            (checkSimpleSpam msg sender grp t2
              (checkSimpleSpam msg sender grp t1 cache).2).2).2).2).2 =
      some ⟨messageHash msg, 1, t5⟩ := by
  have hr1 : checkSimpleSpam msg sender grp t1 cache =
      (none, cacheSet (repeatKey sender grp) ⟨messageHash msg, 1, t1⟩
        (cleanRecentMessages t1 cache)) :=
    checkSimpleSpam_fresh msg sender grp t1 cache h5 hl hc
      (cacheGet_none_clean _ _ _ h0)
  have hfr1 : ¬ 60000 < t2 - t1 := by omega
  have hget1 : cacheGet (repeatKey sender grp)
      (cleanRecentMessages t2 (cacheSet (repeatKey sender grp)
        ⟨messageHash msg, 1, t1⟩ (cleanRecentMessages t1 cache))) =
      some ⟨messageHash msg, 1, t1⟩ := by
    rw [cacheGet_clean_cacheSet, if_neg (by simpa using hfr1)]
  have hr2 := checkSimpleSpam_hit msg sender grp t2 1 t1 _ h5 hl hc hget1
  rw [if_neg (by omega)] at hr2
  have hfr2 : ¬ 60000 < t3 - t2 := by omega
  have hget2 : cacheGet (repeatKey sender grp)
      (cleanRecentMessages t3 (cacheSet (repeatKey sender grp)
        ⟨messageHash msg, 1 + 1, t2⟩
        (cleanRecentMessages t2 (cacheSet (repeatKey sender grp)
          ⟨messageHash msg, 1, t1⟩ (cleanRecentMessages t1 cache))))) =
      some ⟨messageHash msg, 1 + 1, t2⟩ := by
    rw [cacheGet_clean_cacheSet, if_neg (by simpa using hfr2)]
  have hr3 := checkSimpleSpam_hit msg sender grp t3 (1 + 1) t2 _ h5 hl hc hget2
  rw [if_pos (by omega)] at hr3
  have hstep4 : ∀ c4 : RepeatCache,
      (cacheGet (repeatKey sender grp) (cleanRecentMessages t4 c4) = none ∨
        cacheGet (repeatKey sender grp) (cleanRecentMessages t4 c4) =
          some ⟨messageHash msg, 1 + 1 + 1, t3⟩) →
      checkSimpleSpam d sender grp t4 c4 =
        (none, cacheSet (repeatKey sender grp) ⟨messageHash d, 1, t4⟩
          (cleanRecentMessages t4 c4)) := by
    intro c4 hcase
    rcases hcase with hn | hs
    · exact checkSimpleSpam_fresh d sender grp t4 c4 hd5 hdl hdc hn
    · exact checkSimpleSpam_miss d sender grp t4 _ c4 hd5 hdl hdc hs
        (by simpa using Ne.symm hne)
  have hstep5 : ∀ c5 : RepeatCache,
      (cacheGet (repeatKey sender grp) (cleanRecentMessages t5 c5) = none ∨
        cacheGet (repeatKey sender grp) (cleanRecentMessages t5 c5) =
          some ⟨messageHash d, 1, t4⟩) →
      checkSimpleSpam msg sender grp t5 c5 =
        (none, cacheSet (repeatKey sender grp) ⟨messageHash msg, 1, t5⟩
          (cleanRecentMessages t5 c5)) := by
    intro c5 hcase
    rcases hcase with hn | hs
    · exact checkSimpleSpam_fresh msg sender grp t5 c5 h5 hl hc hn
    · exact checkSimpleSpam_miss msg sender grp t5 _ c5 h5 hl hc hs (by simpa using hne)
  refine ⟨?_, ?_, ?_, ?_, ?_, ?_, ?_⟩
  · rw [hr1]
  · rw [hr1]
    dsimp only
    rw [hr2]
  · rw [hr1]
    dsimp only
    rw [hr2]
    dsimp only
    rw [hr3]
  · rw [hr1]
    dsimp only
    rw [hr2]
    dsimp only
    rw [hr3]
    dsimp only
    rw [hstep4 _ (cacheGet_clean_cacheSet_cases sender grp _ t4 _)]
  · rw [hr1]
    dsimp only
    rw [hr2]
    dsimp only
    rw [hr3]
    dsimp only
    rw [hstep4 _ (cacheGet_clean_cacheSet_cases sender grp _ t4 _)]
    dsimp only
    rw [cacheGet_cacheSet]
  · rw [hr1]
    dsimp only
    rw [hr2]
    dsimp only
    rw [hr3]
    dsimp only
    rw [hstep4 _ (cacheGet_clean_cacheSet_cases sender grp _ t4 _)]
    dsimp only
    rw [hstep5 _ (cacheGet_clean_cacheSet_cases sender grp _ t5 _)]
  · rw [hr1]
    dsimp only
    rw [hr2]
    dsimp only
    rw [hr3]
    dsimp only
    rw [hstep4 _ (cacheGet_clean_cacheSet_cases sender grp _ t4 _)]
    dsimp only
    rw [hstep5 _ (cacheGet_clean_cacheSet_cases sender grp _ t5 _)]
    dsimp only
    rw [cacheGet_cacheSet]

/-- Claim C5, witness: `hello` sent at 0, 10 and 20 ms triggers the verdict
on the third send; the differing `other` resets the entry; a final `hello`
long after the window finds a fresh count of one and no verdict. -/
theorem repeated_message_streak_witness :
    (checkSimpleSpam (r"hello".data) (r"u1".data) (r"g1".data) 0 []).1 = none ∧
    (checkSimpleSpam (r"hello".data) (r"u1".data) (r"g1".data) 10
      (checkSimpleSpam (r"hello".data) (r"u1".data) (r"g1".data) 0 []).2).1 = none ∧
    (checkSimpleSpam (r"hello".data) (r"u1".data) (r"g1".data) 20
      (checkSimpleSpam (r"hello".data) (r"u1".data) (r"g1".data) 10
        (checkSimpleSpam (r"hello".data) (r"u1".data) (r"g1".data) 0 []).2).2).1 =
      some ⟨VerdictType.repeated_message, Severity.medium⟩ ∧
    (checkSimpleSpam (r"other".data) (r"u1".data) (r"g1".data) 30
      (checkSimpleSpam (r"hello".data) (r"u1".data) (r"g1".data) 20
        (checkSimpleSpam (r"hello".data) (r"u1".data) (r"g1".data) 10
          (checkSimpleSpam (r"hello".data) (r"u1".data) (r"g1".data) 0 []).2).2).2).1 =
      none ∧
    cacheGet (repeatKey (r"u1".data) (r"g1".data))
      (checkSimpleSpam (r"other".data) (r"u1".data) (r"g1".data) 30
        (checkSimpleSpam (r"hello".data) (r"u1".data) (r"g1".data) 20
          (checkSimpleSpam (r"hello".data) (r"u1".data) (r"g1".data) 10
            (checkSimpleSpam (r"hello".data) (r"u1".data) (r"g1".data) 0 []).2).2).2).2 =
      some ⟨messageHash (r"other".data), 1, 30⟩ ∧
    (checkSimpleSpam (r"hello".data) (r"u1".data) (r"g1".data) 100000
      (checkSimpleSpam (r"other".data) (r"u1".data) (r"g1".data) 30
        (checkSimpleSpam (r"hello".data) (r"u1".data) (r"g1".data) 20
          (checkSimpleSpam (r"hello".data) (r"u1".data) (r"g1".data) 10
            (checkSimpleSpam (r"hello".data) (r"u1".data) (r"g1".data) 0 []).2).2).2).2).1 =
      none ∧
    cacheGet (repeatKey (r"u1".data) (r"g1".data))
      (checkSimpleSpam (r"hello".data) (r"u1".data) (r"g1".data) 100000
        (checkSimpleSpam (r"other".data) (r"u1".data) (r"g1".data) 30
          (checkSimpleSpam (r"hello".data) (r"u1".data) (r"g1".data) 20
            (checkSimpleSpam (r"hello".data) (r"u1".data) (r"g1".data) 10
              (checkSimpleSpam (r"hello".data) (r"u1".data) (r"g1".data) 0 []).2).2).2).2).2 =
      some ⟨messageHash (r"hello".data), 1, 100000⟩ :=
  repeated_message_streak (r"hello".data) (r"other".data) (r"u1".data) (r"g1".data)
    0 10 20 30 100000 []
    (by decide) (by decide) (by decide) (by decide) (by decide) (by decide)
    (by decide) (by decide) (by decide) (by decide)

end WhatsappBot
